import Mathlib

/-!
Shallow embedding of `plugins/inputs/nats_consumer/nats_consumer.go`
(package `natsconsumer`).

The plugin is a push-driven NATS subscriber: `Start` builds an optional
TLS configuration, dials (or reuses) a connection, registers an
asynchronous error handler, subscribes each configured subject
(Subscribe, then Flush, then SetPendingLimits), then spawns the
`receiver` goroutine which multiplexes three channels (`done`, `errs`,
`in`) with a Go `select`.  `Stop` closes `done`, waits for the receiver,
and cleans up subscriptions and the connection.

External collaborators (the NATS client library, the parser, the
accumulator) are modelled as oracles/parameters; the control flow of the
plugin itself is translated statement by statement from the Go source.
-/

namespace NatsConsumer

/-- A decoded telegraf metric as consumed by `acc.AddFields(metric.Name(),
metric.Fields(), metric.Tags(), metric.Time())`.  Field values and the
timestamp are abstracted to `Int`/`Nat`; the claims never inspect them. -/
structure Metric where
  name : String
  fields : List (String × Int)
  tags : List (String × String)
  time : Nat
deriving Repr, DecidableEq

/-- A raw NATS message (`*nats.Msg`): the delivered subject and payload bytes. -/
structure Msg where
  subject : String
  data : List Nat
deriving Repr, DecidableEq

/-- The parser interface `parsers.Parser`: `Parse(data []byte) ([]telegraf.Metric, error)`.
In Go the two results are returned together, so an implementation may
return both a non-empty metric slice and a non-nil error. -/
def Parser : Type := List Nat → List Metric × Option String

/-- One call made on the accumulator (`telegraf.Accumulator`), the sink:
either `AddError(err)` or `AddFields(name, fields, tags, time)`. -/
inductive SinkCall where
  | addError (msg : String)
  | addFields (name : String) (fields : List (String × Int)) (tags : List (String × String)) (time : Nat)
deriving Repr, DecidableEq

/-- Whether a sink call is an `AddFields` (record forwarding) call. -/
def SinkCall.isAddFields : SinkCall → Bool
  | .addError _ => false
  | .addFields _ _ _ _ => true

/-- Whether a sink call is an `AddError` call. -/
def SinkCall.isAddError : SinkCall → Bool
  | .addError _ => true
  | .addFields _ _ _ _ => false

/-- The live NATS connection (`*nats.Conn`), reduced to what the plugin
reads from it: `IsClosed()`, `ConnectedUrl()` and `ConnectedServerId()`. -/
structure Conn where
  closed : Bool
  url : String
  id : String
deriving Repr, DecidableEq

/-- A subscription (`*nats.Subscription`) as recorded in `n.Subs` after
`QueueSubscribe` + `SetPendingLimits` succeeded: its subject, queue group
and the pending limits that were applied. -/
structure Subscription where
  subject : String
  queue : String
  pendingMsgLimit : Int
  pendingBytesLimit : Int
deriving Repr, DecidableEq

/-- The `natsError` wrapper: the underlying error plus the connection and
subscription it came from. -/
structure NatsError where
  conn : Conn
  sub : Subscription
  err : String
deriving Repr, DecidableEq

/-- Go method `natsError.Error()`:
`fmt.Sprintf("%s url:%s id:%s sub:%s queue:%s", ...)`. -/
def NatsError.errorString (e : NatsError) : String :=
  e.err ++ " url:" ++ e.conn.url ++ " id:" ++ e.conn.id
    ++ " sub:" ++ e.sub.subject ++ " queue:" ++ e.sub.queue

/-- A Go channel with a fixed capacity, its buffered contents (FIFO, head
is dequeued first) and whether a receiver is currently blocked on it
waiting for a value (which is what makes a send on an unbuffered channel
succeed without blocking). -/
structure Chan (α : Type) where
  capacity : Nat
  buffer : List α
  receiverWaiting : Bool
deriving Repr, DecidableEq

/-- A non-blocking send, Go's `select { case ch <- x: ... default: ... }`:
it succeeds (returns `true`) when a receiver is waiting (the value is
handed to it directly) or when buffer capacity is free (the value is
appended); otherwise the channel is left unchanged and `false` is
returned.  It is a total function: it never blocks. -/
def Chan.trySend {α : Type} (c : Chan α) (x : α) : Chan α × Bool :=
  if c.receiverWaiting then ({ c with receiverWaiting := false }, true)
  else if c.buffer.length < c.capacity then ({ c with buffer := c.buffer ++ [x] }, true)
  else (c, false)

/-- Handler `natsErrHandler`: wraps the error into a `natsError` and performs a
non-blocking send on `n.errs` (`select` with a `default` branch that
just returns).  The `Bool` records whether the fault was handed off. -/
def natsErrHandler (errs : Chan NatsError) (c : Conn) (s : Subscription) (e : String) :
    Chan NatsError × Bool :=
  errs.trySend { conn := c, sub := s, err := e }

/-- The body of the `case msg := <-n.in:` branch of `receiver`:
parse the payload; on a parse error call
`acc.AddError("E! subject: ..., error: ...")`; then, with no `continue`
in between, range over whatever metric slice `Parse` returned and call
`acc.AddFields` for each metric. -/
def receiverMsgStep (parse : Parser) (msg : Msg) : List SinkCall :=
  match parse msg.data with
  | (metrics, err) =>
    (match err with
     | some e => [SinkCall.addError ("E! subject: " ++ msg.subject ++ ", error: " ++ e)]
     | none => []) ++
    metrics.map (fun m => SinkCall.addFields m.name m.fields m.tags m.time)

/-- The TLS client configuration built by `Start` when `n.Secure` is set:
`&tls.Config{InsecureSkipVerify: !n.VerifyHost, Certificates: ...,
RootCAs: pool, MinVersion: tls.VersionTLS12}`.  `tls.VersionTLS12 = 0x0303
= 771`. -/
structure TLSConfig where
  insecureSkipVerify : Bool
  hasCertificates : Bool
  hasRootCAs : Bool
  minVersion : Nat
deriving Repr, DecidableEq

/-- The `nats.Options` fields the plugin sets before dialing. -/
structure Options where
  maxReconnect : Int
  servers : List String
  secure : Bool
  tlsConfig : Option TLSConfig
deriving Repr, DecidableEq

/-- The mutable fields of the `natsConsumer` struct that the claims are
about.  `done : Option Bool` models the `done chan struct{}` pointer:
`none` is the nil channel of a never-started instance, `some false` an
open channel, `some true` a closed one.  The Go field names are kept. -/
structure NatsState where
  QueueGroup : String
  Subjects : List String
  Servers : List String
  Secure : Bool
  VerifyHost : Bool
  PendingMessageLimit : Int
  PendingBytesLimit : Int
  Conn : Option Conn
  Subs : List Subscription
  inChan : Option (Chan Msg)
  errsChan : Option (Chan NatsError)
  done : Option Bool
deriving Repr, DecidableEq

/-- Outcomes of the external calls `Start` makes, so `Start` can be a
pure function of the consumer state and this oracle.  `certLoadOk`,
`caReadOk`, `caAppendOk` are the results of `tls.LoadX509KeyPair`,
`ioutil.ReadFile(n.SSLCA)` and `pool.AppendCertsFromPEM`;
`subscribeErr`, `flushErr`, `pendingErr` give, per subject, the error of
`QueueSubscribe`, of the `Flush` that follows it, and of
`SetPendingLimits`. -/
structure StartEnv where
  certLoadOk : Bool
  caReadOk : Bool
  caAppendOk : Bool
  connectErr : Option String
  connectedUrl : String
  connectedServerId : String
  subscribeErr : String → Option String
  flushErr : String → Option String
  pendingErr : String → Option String

/-- The option-building prologue of `Start`: defaults, `MaxReconnect = -1`,
`Servers`, `Secure`, and — when `n.Secure` — the client-certificate /
CA-pool / `tls.Config` setup.  A `.error` result models `log.Fatalf`
(process abort before anything is dialed). -/
def buildOpts (env : StartEnv) (s : NatsState) : Except String Options :=
  let base : Options :=
    { maxReconnect := -1, servers := s.Servers, secure := s.Secure, tlsConfig := none }
  if s.Secure then
    if !env.certLoadOk then .error "error parsing X509 certificate/key pair"
    else if !env.caReadOk then .error "error parsing CA certificate"
    else if !env.caAppendOk then .error "error processing CA certificate"
    else .ok { base with
      tlsConfig := some { insecureSkipVerify := !s.VerifyHost,
                          hasCertificates := true, hasRootCAs := true, minVersion := 771 } }
  else .ok base

/-- One operation issued to the NATS client library during `Start`, in
issue order. -/
inductive BrokerOp where
  | connect
  | setErrorHandler
  | subscribe (subject queue : String)
  | flush
  | setPendingLimits (subject : String) (maxMsgs maxBytes : Int)
deriving Repr, DecidableEq

/-- The subscription record appended to `n.Subs` after the three broker
calls for `subj` all succeeded. -/
def mkSub (group : String) (pm pb : Int) (subj : String) : Subscription :=
  { subject := subj, queue := group, pendingMsgLimit := pm, pendingBytesLimit := pb }

/-- The full per-subject operation block of the subscribe loop when all
three calls succeed: `QueueSubscribe`, then `Flush`, then
`SetPendingLimits`. -/
def subBlock (group : String) (pm pb : Int) (subj : String) : List BrokerOp :=
  [.subscribe subj group, .flush, .setPendingLimits subj pm pb]

/-- One iteration of the subscribe loop in `Start` for subject `subj`:
`QueueSubscribe(subj, group, cb)`; on success `Conn.Flush()`; on success
`sub.SetPendingLimits(pm, pb)`.  Returns the broker operations issued,
the subscription to append to `n.Subs` (only when everything succeeded),
and the first error. -/
def subscribeOne (env : StartEnv) (group : String) (pm pb : Int) (subj : String) :
    List BrokerOp × Option Subscription × Option String :=
  match env.subscribeErr subj with
  | some e => ([.subscribe subj group], none, some e)
  | none =>
    match env.flushErr subj with
    | some e => ([.subscribe subj group, .flush], none, some e)
    | none =>
      match env.pendingErr subj with
      | some e => (subBlock group pm pb subj, none, some e)
      | none => (subBlock group pm pb subj, some (mkSub group pm pb subj), none)

/-- The `for _, subj := range n.Subjects` loop of `Start`: each subject is
processed by `subscribeOne`; the first error aborts the loop (`return err`)
and subscriptions appended for earlier subjects stay appended. -/
def subLoop (env : StartEnv) (group : String) (pm pb : Int) :
    List String → List BrokerOp × List Subscription × Option String
  | [] => ([], [], none)
  | subj :: rest =>
    match subscribeOne env group pm pb subj with
    | (tr, _, some e) => (tr, [], some e)
    | (tr, some sub, none) =>
      let r := subLoop env group pm pb rest
      (tr ++ r.1, sub :: r.2.1, r.2.2)
    | (tr, none, none) => (tr, [], none)

/-- The result of `Start`: `fatal` models `log.Fatalf` during TLS setup;
`err` is a non-nil error return (the struct fields mutated so far are
kept, as in Go); `ok` is a nil error return. -/
inductive StartOutcome where
  | fatal (msg : String)
  | err (s : NatsState) (msg : String)
  | ok (s : NatsState)
deriving Repr, DecidableEq

/-- The state carried by a non-fatal `Start` outcome. -/
def outcomeState : StartOutcome → Option NatsState
  | .fatal _ => none
  | .err s _ => some s
  | .ok s => some s

/-- The guard `n.Conn == nil || n.Conn.IsClosed()` deciding whether
`Start` dials a new connection. -/
def needsConnect (s : NatsState) : Bool :=
  match s.Conn with
  | none => true
  | some c => c.closed

/-- Method `Start(acc)`, as a function of the consumer state and the broker
oracle, returning the broker operations issued and the outcome:
build options (possibly fatal); if `n.Conn == nil || n.Conn.IsClosed()`
dial, create `n.errs = make(chan error)` (unbuffered), install the error
handler, create `n.in = make(chan *nats.Msg, 1000)`, run the subscribe
loop (first error returns); finally `n.done = make(chan struct{})` and
the receiver goroutine is spawned.  On an error return `n.done` is not
recreated. -/
def Start (env : StartEnv) (s : NatsState) : List BrokerOp × StartOutcome :=
  match buildOpts env s with
  | .error m => ([], .fatal m)
  | .ok _opts =>
    if needsConnect s then
      match env.connectErr with
      | some e => ([.connect], .err { s with Conn := none } e)
      | none =>
        let s1 := { s with
          Conn := some { closed := false, url := env.connectedUrl, id := env.connectedServerId },
          errsChan := some { capacity := 0, buffer := [], receiverWaiting := false },
          inChan := some { capacity := 1000, buffer := [], receiverWaiting := false } }
        let r := subLoop env s.QueueGroup s.PendingMessageLimit s.PendingBytesLimit s.Subjects
        let s2 := { s1 with Subs := s1.Subs ++ r.2.1 }
        match r.2.2 with
        | some e => ([.connect, .setErrorHandler] ++ r.1, .err s2 e)
        | none => ([.connect, .setErrorHandler] ++ r.1, .ok { s2 with done := some false })
    else
      ([], .ok { s with done := some false })

/-- The run-time panics `Stop` can hit: `close` of a nil channel (no
successful `Start` ever ran) and `close` of an already-closed channel
(a second `Stop`). -/
inductive GoPanic where
  | closeNil
  | closeClosed
deriving Repr, DecidableEq

/-- Method `clean()`: `Unsubscribe` every recorded subscription, reporting each
failure to the accumulator, then `Close` the connection if it is non-nil
and not closed.  `unsubErr` gives the per-subject `Unsubscribe` result. -/
def clean (unsubErr : String → Option String) (s : NatsState) : NatsState × List SinkCall :=
  let calls := s.Subs.filterMap fun sub =>
    (unsubErr sub.subject).map fun e =>
      SinkCall.addError ("E! Error unsubscribing from subject " ++ sub.subject
        ++ " in queue " ++ sub.queue ++ ": " ++ e ++ "\n")
  let conn' : Option Conn :=
    match s.Conn with
    | some c => if !c.closed then some { c with closed := true } else some c
    | none => none
  ({ s with Conn := conn' }, calls)

/-- Method `Stop()`: `close(n.done)` unconditionally — a Go panic if `n.done` is
nil or already closed — then `n.wg.Wait()` and `clean()`.  There is no
guard around the `close`. -/
def Stop (unsubErr : String → Option String) (s : NatsState) :
    Except GoPanic (NatsState × List SinkCall) :=
  match s.done with
  | none => .error .closeNil
  | some true => .error .closeClosed
  | some false => .ok (clean unsubErr { s with done := some true })

/-- The instance produced by the plugin-registration factory in `init()`:
`Servers`, `Secure: true`, `Subjects`, `QueueGroup` and the two pending
limits are set explicitly; every other field keeps its Go zero value —
in particular `VerifyHost` is `false` and `done` is the nil channel.
`nats.DefaultSubPendingMsgsLimit = 65536`,
`nats.DefaultSubPendingBytesLimit = 65536 * 1024`. -/
def initConsumer : NatsState :=
  { QueueGroup := "telegraf_consumers"
    Subjects := ["telegraf"]
    Servers := ["nats://localhost:4222"]
    Secure := true
    VerifyHost := false
    PendingMessageLimit := 65536
    PendingBytesLimit := 67108864
    Conn := none
    Subs := []
    inChan := none
    errsChan := none
    done := none }

/-- The subscription callback `func(m *nats.Msg) { n.in <- m }`: a
(blocking) channel send, which enqueues the message at the tail of the
FIFO buffer once it completes. -/
def onMsg (c : Chan Msg) (m : Msg) : Chan Msg :=
  { c with buffer := c.buffer ++ [m] }

/-- The state seen by the `receiver` goroutine's `select` loop: whether
`n.done` has been closed, the faults pending on `n.errs` (senders whose
hand-off the loop can accept, in order), the messages buffered in `n.in`
(FIFO, head first), the accumulator calls made so far, and whether the
loop has returned. -/
structure LoopState where
  doneClosed : Bool
  errsPending : List NatsError
  inQueue : List Msg
  sinkTrace : List SinkCall
  returned : Bool
deriving Repr, DecidableEq

/-- One iteration of `receiver`'s `select`.  Go's `select` chooses among
the *ready* cases with no priority, so each ready case is a possible
step: observing the closed `done` returns from the loop; a pending fault
is forwarded with `acc.AddError("E! error reading from ...")`; the head
message of `n.in` is processed by `receiverMsgStep`.  A returned loop
takes no further steps. -/
inductive ReceiverStep (parse : Parser) : LoopState → LoopState → Prop where
  | doneStep {s : LoopState} :
      s.returned = false → s.doneClosed = true →
      ReceiverStep parse s { s with returned := true }
  | errStep {s : LoopState} {e : NatsError} {rest : List NatsError} :
      s.returned = false → s.errsPending = e :: rest →
      ReceiverStep parse s
        { s with errsPending := rest,
                 sinkTrace := s.sinkTrace
                   ++ [SinkCall.addError ("E! error reading from " ++ e.errorString ++ "\n")] }
  | msgStep {s : LoopState} {m : Msg} {rest : List Msg} :
      s.returned = false → s.inQueue = m :: rest →
      ReceiverStep parse s
        { s with inQueue := rest,
                 sinkTrace := s.sinkTrace ++ receiverMsgStep parse m }

/-- Zero or more iterations of the `receiver` loop. -/
inductive Reaches (parse : Parser) : LoopState → LoopState → Prop where
  | refl (s : LoopState) : Reaches parse s s
  | tail {s t u : LoopState} :
      Reaches parse s t → ReceiverStep parse t u → Reaches parse s u

/-- Termination measure for the loop once shutdown is signaled: every
step strictly decreases it. -/
def loopMeasure (s : LoopState) : Nat :=
  if s.returned then 0 else s.errsPending.length + s.inQueue.length + 1

/-- The loop state right after `go n.receiver()` with `msgs` buffered in
`n.in`, nothing pending on `n.errs` and `n.done` open. -/
def initLoopState (msgs : List Msg) : LoopState :=
  { doneClosed := false, errsPending := [], inQueue := msgs, sinkTrace := [], returned := false }

/-- The accumulator calls produced by processing the given messages in
order, each message fully handled before the next. -/
def sinkOutput (parse : Parser) : List Msg → List SinkCall
  | [] => []
  | m :: rest => receiverMsgStep parse m ++ sinkOutput parse rest

/-- The per-subject operation blocks of the subscribe loop for a list of
subjects that all succeed, in order. -/
def blocksOf (group : String) (pm pb : Int) : List String → List BrokerOp
  | [] => []
  | x :: rest => subBlock group pm pb x ++ blocksOf group pm pb rest

/-- A broker oracle on which every external call succeeds. -/
def envOk : StartEnv :=
  { certLoadOk := true
    caReadOk := true
    caAppendOk := true
    connectErr := none
    connectedUrl := "nats://localhost:4222"
    connectedServerId := "SRVID"
    subscribeErr := fun _ => none
    flushErr := fun _ => none
    pendingErr := fun _ => none }

/-- An `Unsubscribe` oracle on which every call succeeds. -/
def unsubOk : String → Option String := fun _ => none

/-- The state of the factory-registered instance after one successful
`Start` against `envOk` (extracted from the `Start` outcome). -/
def startedState : NatsState :=
  (outcomeState (Start envOk initConsumer).2).getD initConsumer

/-- The state of `startedState` after one successful `Stop`. -/
def afterFirstStop : NatsState :=
  (((Stop unsubOk startedState).toOption).map Prod.fst).getD initConsumer

/-- A parser that, like a Go `Parse` returning both a metric slice and a
non-nil error, rejects every payload yet still returns one metric. -/
def parserC2 : Parser :=
  fun _ => ([{ name := "m", fields := [("value", 1)], tags := [], time := 0 }], some "unable to parse")

/-- A concrete delivered message on the default subject. -/
def msgC2 : Msg := { subject := "telegraf", data := [0] }

/-- A concrete connection for exercising the error handler. -/
def connC5 : Conn := { closed := false, url := "nats://localhost:4222", id := "SRVID" }

/-- A concrete subscription for exercising the error handler. -/
def subC5 : Subscription :=
  { subject := "telegraf", queue := "telegraf_consumers", pendingMsgLimit := 65536,
    pendingBytesLimit := 67108864 }

/-- An unbuffered fault channel with the dispatch loop blocked at its
`select`, ready to receive. -/
def chanReadyC5 : Chan NatsError := { capacity := 0, buffer := [], receiverWaiting := true }

/-- An unbuffered fault channel with no receiver at its `select`. -/
def chanBusyC5 : Chan NatsError := { capacity := 0, buffer := [], receiverWaiting := false }

/-- A broker oracle whose `Flush` fails for subject `b` only. -/
def envC6 : StartEnv :=
  { envOk with flushErr := fun x => if x = "b" then some "flush failed" else none }

/-- A consumer configured with three subjects (and no TLS, so the oracle
options are small). -/
def sC6 : NatsState := { initConsumer with Secure := false, Subjects := ["a", "b", "c"] }

/-- The options `buildOpts` produces for `sC6`. -/
def oC6 : Options :=
  { maxReconnect := -1, servers := ["nats://localhost:4222"], secure := false, tlsConfig := none }

/-- A parser that decodes every payload into one metric. -/
def parseC7 : Parser :=
  fun _ => ([{ name := "cpu", fields := [("usage", 50)], tags := [], time := 0 }], none)

/-- A concrete queued message. -/
def msgC7 : Msg := { subject := "telegraf", data := [1] }

/-- A loop state at the instant `Stop` has closed `done` while one
message is still queued in `n.in`. -/
def sC7 : LoopState :=
  { doneClosed := true, errsPending := [], inQueue := [msgC7], sinkTrace := [], returned := false }

/-- The loop state after the `select` (nondeterministically) picks the
message case from `sC7`. -/
def sC7next : LoopState :=
  { doneClosed := true, errsPending := [], inQueue := [],
    sinkTrace := receiverMsgStep parseC7 msgC7, returned := false }

/-- A parser decoding every payload into one metric, for the FIFO run. -/
def parseC8 : Parser := fun _ => ([{ name := "m8", fields := [], tags := [], time := 3 }], none)

/-- A concrete delivered message for the FIFO run. -/
def msgC8 : Msg := { subject := "telegraf", data := [7] }

/-- The loop state after the receiver processed the single queued
message of `initLoopState [msgC8]`. -/
def sC8 : LoopState :=
  { doneClosed := false, errsPending := [], inQueue := [],
    sinkTrace := receiverMsgStep parseC8 msgC8, returned := false }

/-- The `Options` value `buildOpts` produces for the factory-registered
instance when the TLS files load fine: note `insecureSkipVerify := true`. -/
def defaultOpts : Options :=
  { maxReconnect := -1, servers := ["nats://localhost:4222"], secure := true,
    tlsConfig := some { insecureSkipVerify := true, hasCertificates := true,
                        hasRootCAs := true, minVersion := 771 } }

/-- The TLS configuration inside `defaultOpts`. -/
def defaultTLS : TLSConfig :=
  { insecureSkipVerify := true, hasCertificates := true, hasRootCAs := true, minVersion := 771 }

/-- A consumer holding an open connection (for the reuse claim). -/
def sReuse : NatsState :=
  { initConsumer with
    Conn := some { closed := false, url := "nats://localhost:4222", id := "SRVID" } }

/-- The state `Start` returns when it reuses `sReuse`'s open connection. -/
def sReuseStarted : NatsState :=
  (outcomeState (Start envOk sReuse).2).getD initConsumer

theorem sinkOutput_append (parse : Parser) (l₁ l₂ : List Msg) :
    sinkOutput parse (l₁ ++ l₂) = sinkOutput parse l₁ ++ sinkOutput parse l₂ := by
  induction l₁ with
  | nil => simp [sinkOutput]
  | cons m rest ih => simp [sinkOutput, ih]

/-- Claim C9: calling `Stop` on an instance on which `Start` has never
succeeded panics: `Stop` unconditionally does `close(n.done)`, and
`n.done` is the nil channel before the first successful `Start` — in
particular on the instance produced by plugin registration — so `Stop`
carries the unstated precondition that a successful `Start` precedes it. -/
theorem stop_before_start_panics :
    initConsumer.done = none
    ∧ ∀ (unsubErr : String → Option String) (s : NatsState),
        s.done = none → Stop unsubErr s = .error GoPanic.closeNil := by
  refine ⟨rfl, ?_⟩
  intro unsubErr s h
  simp [Stop, h]

theorem stop_before_start_panics_witness :
    Stop unsubOk initConsumer = .error GoPanic.closeNil :=
  stop_before_start_panics.2 unsubOk initConsumer rfl

/-- Claim C1, counterexample: on the factory instance, `Start` succeeds,
a first `Stop` succeeds, and the second serialized `Stop` panics with
Go's close-of-closed-channel panic — it does close (attempt to close)
the shutdown channel a second time, contrary to the claim. -/
theorem stop_twice_panics_cex :
    (Start envOk initConsumer).2 = StartOutcome.ok startedState
    ∧ Stop unsubOk startedState = .ok (afterFirstStop, [])
    ∧ Stop unsubOk afterFirstStop = .error GoPanic.closeClosed := by
  refine ⟨rfl, rfl, rfl⟩

/-- Claim C1, amended: for every instance on which `Start` has succeeded
(so the shutdown channel is open), the first serialized `Stop` closes the
shutdown channel; there is no idempotency guard, so a second serialized
`Stop` attempts to close the already-closed channel and panics — it is
neither a safe no-op nor a reported error. -/
theorem stop_second_call_panics :
    ∀ (u₁ u₂ : String → Option String) (s : NatsState) (r : NatsState × List SinkCall),
      s.done = some false → Stop u₁ s = .ok r →
      r.1.done = some true ∧ Stop u₂ r.1 = .error GoPanic.closeClosed := by
  intro u₁ u₂ s r hdone hstop
  have h1 : Stop u₁ s = .ok (clean u₁ { s with done := some true }) := by
    simp [Stop, hdone]
  rw [h1] at hstop
  have hr : r = clean u₁ { s with done := some true } := by
    cases hstop; rfl
  subst hr
  constructor
  · simp [clean]
  · simp [Stop, clean]

theorem stop_second_call_panics_witness :
    afterFirstStop.done = some true
    ∧ Stop unsubOk afterFirstStop = .error GoPanic.closeClosed :=
  stop_second_call_panics unsubOk unsubOk startedState (afterFirstStop, []) rfl rfl

/-- Claim C3, counterexample: the factory-registered instance requests
secure transport (`Secure := true`) and leaves `VerifyHost` at its zero
value `false`, so the TLS configuration `Start` builds for it has
`InsecureSkipVerify = true`: with the default configuration, hostname
and chain verification IS skipped, without any operator opt-in. -/
theorem default_config_skips_verification_cex :
    initConsumer.Secure = true
    ∧ buildOpts envOk initConsumer = Except.ok defaultOpts
    ∧ defaultTLS.insecureSkipVerify = true
    ∧ defaultOpts.tlsConfig = some defaultTLS := by
  refine ⟨rfl, rfl, rfl, rfl⟩

/-- Claim C3, amended: when secure transport is requested, the built TLS
configuration skips hostname/chain verification exactly when
`verify_host` is `false` — i.e. skipping is the behaviour unless the
operator explicitly opts *out* of it — and the default configuration
produced at plugin registration leaves `verify_host` at `false`, so by
default verification is skipped. -/
theorem skip_verify_iff_not_verifyHost :
    (∀ (env : StartEnv) (s : NatsState) (o : Options) (cfg : TLSConfig),
      s.Secure = true → buildOpts env s = .ok o → o.tlsConfig = some cfg →
      cfg.insecureSkipVerify = !s.VerifyHost)
    ∧ initConsumer.VerifyHost = false ∧ initConsumer.Secure = true := by
  refine ⟨?_, rfl, rfl⟩
  intro env s o cfg hsec hopts hcfg
  simp only [buildOpts, hsec, if_true] at hopts
  by_cases h1 : env.certLoadOk
  · by_cases h2 : env.caReadOk
    · by_cases h3 : env.caAppendOk
      · simp [h1, h2, h3] at hopts
        subst hopts
        simp at hcfg
        subst hcfg
        rfl
      · simp [h1, h2, h3] at hopts
    · simp [h1, h2] at hopts
  · simp [h1] at hopts

theorem skip_verify_iff_not_verifyHost_witness :
    defaultTLS.insecureSkipVerify = !initConsumer.VerifyHost
    ∧ initConsumer.VerifyHost = false :=
  ⟨skip_verify_iff_not_verifyHost.1 envOk initConsumer defaultOpts defaultTLS rfl rfl rfl,
   skip_verify_iff_not_verifyHost.2.1⟩

/-- Claim C5: for every asynchronous broker fault, `natsErrHandler`
either hands the fault to the fault channel immediately — possible
exactly when a receiver is ready or buffer capacity is free — or returns
leaving the channel unchanged (the fault is dropped).  It is a total
function of the channel state: it never blocks the calling thread. -/
theorem natsErrHandler_nonblocking :
    ∀ (errs : Chan NatsError) (c : Conn) (sub : Subscription) (e : String),
      ((errs.receiverWaiting = true ∨ errs.buffer.length < errs.capacity) →
        (natsErrHandler errs c sub e).2 = true)
      ∧ (errs.receiverWaiting = false → ¬ errs.buffer.length < errs.capacity →
        natsErrHandler errs c sub e = (errs, false)) := by
  intro errs c sub e
  constructor
  · intro h
    by_cases hw : errs.receiverWaiting = true
    · simp [natsErrHandler, Chan.trySend, hw]
    · rcases h with h | h
      · exact absurd h hw
      · simp only [Bool.not_eq_true] at hw
        simp [natsErrHandler, Chan.trySend, hw, h]
  · intro hw hlen
    simp [natsErrHandler, Chan.trySend, hw, hlen]

theorem natsErrHandler_nonblocking_witness :
    (natsErrHandler chanReadyC5 connC5 subC5 "nats: slow consumer").2 = true
    ∧ natsErrHandler chanBusyC5 connC5 subC5 "nats: slow consumer" = (chanBusyC5, false) :=
  ⟨(natsErrHandler_nonblocking chanReadyC5 connC5 subC5 "nats: slow consumer").1 (Or.inl rfl),
   (natsErrHandler_nonblocking chanBusyC5 connC5 subC5 "nats: slow consumer").2 rfl (by decide)⟩

/-- Claim C2, counterexample: the parser interface returns a metric
slice *and* an error together, and the `receiver` branch has no
`continue` between `AddError` and the `range metrics` loop; with a
parser that rejects the payload yet returns one metric, the dispatch
loop forwards one error — but also one record, not zero. -/
theorem decode_error_records_forwarded_cex :
    (parserC2 msgC2.data).2 = some "unable to parse"
    ∧ ((receiverMsgStep parserC2 msgC2).filter SinkCall.isAddError).length = 1
    ∧ ((receiverMsgStep parserC2 msgC2).filter SinkCall.isAddFields).length = 1 := by
  refine ⟨rfl, rfl, rfl⟩

/-- Claim C2, amended: for every envelope whose payload the decoder
rejects, the dispatch loop forwards exactly one error — whose text
carries the envelope's subject — to the sink, followed by one record for
every metric in the slice the decoder returned alongside the error (so
zero records exactly when the decoder returned an empty slice), and
continues looping. -/
theorem decode_error_one_error_with_subject :
    ∀ (parse : Parser) (msg : Msg) (e : String),
      (parse msg.data).2 = some e →
      receiverMsgStep parse msg =
        SinkCall.addError ("E! subject: " ++ msg.subject ++ ", error: " ++ e)
          :: (parse msg.data).1.map (fun m => SinkCall.addFields m.name m.fields m.tags m.time) := by
  intro parse msg e h
  unfold receiverMsgStep
  rcases hpe : parse msg.data with ⟨ms, err⟩
  rw [hpe] at h
  simp only at h
  subst h
  simp

theorem decode_error_one_error_with_subject_witness :
    receiverMsgStep parserC2 msgC2 =
      SinkCall.addError ("E! subject: " ++ msgC2.subject ++ ", error: " ++ "unable to parse")
        :: (parserC2 msgC2.data).1.map (fun m => SinkCall.addFields m.name m.fields m.tags m.time) :=
  decode_error_one_error_with_subject parserC2 msgC2 "unable to parse" rfl

/-- Claim C4: a `Start` on an instance whose connection is non-nil and
not closed issues no broker operation at all — no dial, no subscription
— and, when it returns nil, leaves every field except the fresh `done`
channel unchanged: the open connection is reused. -/
theorem start_reuses_open_connection :
    ∀ (env : StartEnv) (s : NatsState) (c : Conn),
      s.Conn = some c → c.closed = false →
      (Start env s).1 = []
      ∧ ∀ s', (Start env s).2 = .ok s' → s' = { s with done := some false } := by
  intro env s c hconn hclosed
  have hneed : needsConnect s = false := by
    simp [needsConnect, hconn, hclosed]
  cases hb : buildOpts env s with
  | error m =>
    refine ⟨by simp [Start, hb], ?_⟩
    intro s' h
    simp [Start, hb] at h
  | ok o =>
    refine ⟨by simp [Start, hb, hneed], ?_⟩
    intro s' h
    simp [Start, hb, hneed] at h
    exact h.symm

theorem start_reuses_open_connection_witness :
    (Start envOk sReuse).1 = []
    ∧ sReuseStarted = { sReuse with done := some false } :=
  ⟨(start_reuses_open_connection envOk sReuse
      { closed := false, url := "nats://localhost:4222", id := "SRVID" } rfl rfl).1,
   (start_reuses_open_connection envOk sReuse
      { closed := false, url := "nats://localhost:4222", id := "SRVID" } rfl rfl).2
      sReuseStarted rfl⟩

/-- Claim C10: when `Start` dials, it creates the fault channel with
`make(chan error)` — capacity zero, unbuffered — and on a channel of
capacity zero the non-blocking send in `natsErrHandler` succeeds exactly
when the dispatch loop is already blocked at its three-way `select`
waiting to receive; a fault arriving at any other instant is dropped. -/
theorem errs_unbuffered_delivery_iff_receiver_waiting :
    (∀ (env : StartEnv) (s : NatsState) (s' : NatsState),
      needsConnect s = true → env.connectErr = none →
      outcomeState (Start env s).2 = some s' →
      s'.errsChan = some { capacity := 0, buffer := [], receiverWaiting := false })
    ∧ (∀ (c : Chan NatsError) (co : Conn) (sub : Subscription) (e : String),
      c.capacity = 0 →
      ((natsErrHandler c co sub e).2 = true ↔ c.receiverWaiting = true)) := by
  constructor
  · intro env s s' hneed hconn hout
    cases hb : buildOpts env s with
    | error m => simp [Start, hb, outcomeState] at hout
    | ok o =>
      simp only [Start, hb, hneed, if_true, hconn] at hout
      rcases hr : (subLoop env s.QueueGroup s.PendingMessageLimit s.PendingBytesLimit s.Subjects).2.2 with _ | e
      · rw [hr] at hout
        simp only [outcomeState, Option.some.injEq] at hout
        subst hout
        rfl
      · rw [hr] at hout
        simp only [outcomeState, Option.some.injEq] at hout
        subst hout
        rfl
  · intro c co sub e hcap
    constructor
    · intro h
      by_cases hw : c.receiverWaiting = true
      · exact hw
      · exfalso
        simp only [Bool.not_eq_true] at hw
        simp [natsErrHandler, Chan.trySend, hw, hcap] at h
    · intro hw
      simp [natsErrHandler, Chan.trySend, hw]

theorem errs_unbuffered_delivery_iff_receiver_waiting_witness :
    startedState.errsChan = some { capacity := 0, buffer := [], receiverWaiting := false }
    ∧ ((natsErrHandler { capacity := 0, buffer := [], receiverWaiting := true }
          connC5 subC5 "nats: protocol error").2 = true
        ↔ (({ capacity := 0, buffer := [], receiverWaiting := true } : Chan NatsError)).receiverWaiting = true) :=
  ⟨errs_unbuffered_delivery_iff_receiver_waiting.1 envOk initConsumer startedState rfl rfl rfl,
   errs_unbuffered_delivery_iff_receiver_waiting.2
     { capacity := 0, buffer := [], receiverWaiting := true } connC5 subC5 "nats: protocol error" rfl⟩

theorem subscribeOne_clean (env : StartEnv) (group : String) (pm pb : Int) (subj : String)
    (h1 : env.subscribeErr subj = none) (h2 : env.flushErr subj = none)
    (h3 : env.pendingErr subj = none) :
    subscribeOne env group pm pb subj =
      (subBlock group pm pb subj, some (mkSub group pm pb subj), none) := by
  simp [subscribeOne, h1, h2, h3]

theorem subscribeOne_err_block (env : StartEnv) (group : String) (pm pb : Int) (subj : String)
    (tr : List BrokerOp) (o : Option Subscription) (e : String)
    (h : subscribeOne env group pm pb subj = (tr, o, some e)) :
    ∃ rest, tr ++ rest = subBlock group pm pb subj := by
  unfold subscribeOne at h
  cases h1 : env.subscribeErr subj with
  | some e1 =>
    rw [h1] at h
    simp only [Prod.mk.injEq] at h
    obtain ⟨rfl, -, -⟩ := h
    exact ⟨[.flush, .setPendingLimits subj pm pb], rfl⟩
  | none =>
    rw [h1] at h
    cases h2 : env.flushErr subj with
    | some e2 =>
      rw [h2] at h
      simp only [Prod.mk.injEq] at h
      obtain ⟨rfl, -, -⟩ := h
      exact ⟨[.setPendingLimits subj pm pb], rfl⟩
    | none =>
      rw [h2] at h
      cases h3 : env.pendingErr subj with
      | some e3 =>
        rw [h3] at h
        simp only [Prod.mk.injEq] at h
        obtain ⟨rfl, -, -⟩ := h
        exact ⟨[], by simp⟩
      | none =>
        rw [h3] at h
        simp at h

theorem subLoop_firstErr (env : StartEnv) (group : String) (pm pb : Int)
    (pre : List String) (j : String) (post : List String)
    (trJ : List BrokerOp) (oJ : Option Subscription) (e : String)
    (hpre : ∀ x ∈ pre,
      env.subscribeErr x = none ∧ env.flushErr x = none ∧ env.pendingErr x = none)
    (hj : subscribeOne env group pm pb j = (trJ, oJ, some e)) :
    subLoop env group pm pb (pre ++ j :: post) =
      (blocksOf group pm pb pre ++ trJ, pre.map (mkSub group pm pb), some e) := by
  induction pre with
  | nil =>
    simp only [List.nil_append, List.map_nil, blocksOf]
    rw [subLoop, hj]
    simp
  | cons a rest ih =>
    have ha := hpre a (by simp)
    have h1 := subscribeOne_clean env group pm pb a ha.1 ha.2.1 ha.2.2
    have ih' := ih (fun x hx => hpre x (by simp [hx]))
    simp only [List.cons_append]
    rw [subLoop, h1]
    simp only [ih', blocksOf, List.map_cons]
    simp [List.append_assoc]

/-- Claim C6: during a dialing `Start`, the subjects are processed in
configuration order, each by `QueueSubscribe` then `Flush` then
`SetPendingLimits`, and the first error from any of the three calls
aborts `Start`, returning that error to the caller, with the
subscriptions recorded for earlier subjects left in `Subs` (no
rollback); the operations issued for the failing subject are an ordered
prefix of its Subscribe–Flush–SetPendingLimits block. -/
theorem start_subscribe_flush_limits_order_and_abort :
    ∀ (env : StartEnv) (s : NatsState) (o : Options) (pre : List String) (j : String)
      (post : List String) (trJ : List BrokerOp) (oJ : Option Subscription) (e : String),
      buildOpts env s = .ok o →
      s.Conn = none →
      env.connectErr = none →
      s.Subjects = pre ++ j :: post →
      (∀ x ∈ pre,
        env.subscribeErr x = none ∧ env.flushErr x = none ∧ env.pendingErr x = none) →
      subscribeOne env s.QueueGroup s.PendingMessageLimit s.PendingBytesLimit j
        = (trJ, oJ, some e) →
      (Start env s).1 = [.connect, .setErrorHandler]
          ++ blocksOf s.QueueGroup s.PendingMessageLimit s.PendingBytesLimit pre ++ trJ
      ∧ (Start env s).2 = .err { s with
            Conn := some { closed := false, url := env.connectedUrl,
                           id := env.connectedServerId },
            errsChan := some { capacity := 0, buffer := [], receiverWaiting := false },
            inChan := some { capacity := 1000, buffer := [], receiverWaiting := false },
            Subs := s.Subs
              ++ pre.map (mkSub s.QueueGroup s.PendingMessageLimit s.PendingBytesLimit) } e
      ∧ ∃ rest, trJ ++ rest
          = subBlock s.QueueGroup s.PendingMessageLimit s.PendingBytesLimit j := by
  intro env s o pre j post trJ oJ e hb hconn hcerr hsubj hpre hj
  have hneed : needsConnect s = true := by simp [needsConnect, hconn]
  have hsl : subLoop env s.QueueGroup s.PendingMessageLimit s.PendingBytesLimit s.Subjects =
      (blocksOf s.QueueGroup s.PendingMessageLimit s.PendingBytesLimit pre ++ trJ,
       pre.map (mkSub s.QueueGroup s.PendingMessageLimit s.PendingBytesLimit), some e) := by
    rw [hsubj]
    exact subLoop_firstErr env s.QueueGroup s.PendingMessageLimit s.PendingBytesLimit
      pre j post trJ oJ e hpre hj
  refine ⟨?_, ?_, subscribeOne_err_block env s.QueueGroup s.PendingMessageLimit
    s.PendingBytesLimit j trJ oJ e hj⟩
  · simp [Start, hb, hneed, hcerr, hsl]
  · simp [Start, hb, hneed, hcerr, hsl]

theorem start_subscribe_flush_limits_order_and_abort_witness :
    (Start envC6 sC6).1 = [.connect, .setErrorHandler]
        ++ blocksOf sC6.QueueGroup sC6.PendingMessageLimit sC6.PendingBytesLimit ["a"]
        ++ [.subscribe "b" sC6.QueueGroup, .flush]
    ∧ (Start envC6 sC6).2 = .err { sC6 with
          Conn := some { closed := false, url := envC6.connectedUrl,
                         id := envC6.connectedServerId },
          errsChan := some { capacity := 0, buffer := [], receiverWaiting := false },
          inChan := some { capacity := 1000, buffer := [], receiverWaiting := false },
          Subs := sC6.Subs
            ++ (["a"].map (mkSub sC6.QueueGroup sC6.PendingMessageLimit sC6.PendingBytesLimit)) }
        "flush failed"
    ∧ ∃ rest, [BrokerOp.subscribe "b" sC6.QueueGroup, BrokerOp.flush] ++ rest
        = subBlock sC6.QueueGroup sC6.PendingMessageLimit sC6.PendingBytesLimit "b" :=
  start_subscribe_flush_limits_order_and_abort envC6 sC6 oC6 ["a"] "b" ["c"]
    [.subscribe "b" sC6.QueueGroup, .flush] none "flush failed"
    rfl rfl rfl rfl
    (by intro x hx; simp only [List.mem_singleton] at hx; subst hx
        exact ⟨rfl, rfl, rfl⟩)
    rfl

/-- Claim C7, counterexample: with the shutdown signal already closed
and one envelope still queued, the `receiver`'s `select` does not
prioritize the `done` case — the step that dequeues and processes the
queued envelope (forwarding its record to the sink) is a possible next
iteration, so the loop does not terminate immediately and the queued
envelope is forwarded rather than dropped. -/
theorem shutdown_may_process_queued_cex :
    sC7.doneClosed = true ∧ sC7.inQueue ≠ []
    ∧ ReceiverStep parseC7 sC7 sC7next
    ∧ sC7next.returned = false
    ∧ ((sC7next.sinkTrace.filter SinkCall.isAddFields).length = 1) := by
  refine ⟨rfl, by simp [sC7], ?_, rfl, rfl⟩
  exact ReceiverStep.msgStep rfl rfl

/-- Claim C7, amended: once the shutdown signal is closed (and no new
message or fault arrives), the dispatch loop always terminates: every
iteration strictly decreases the loop measure, and the terminating
`done` step is enabled at every iteration — so `Stop`'s wait for the
dispatch task terminates; but because Go's `select` picks among ready
cases without priority, envelopes still queued may be processed and
forwarded before the loop observes shutdown, rather than being dropped. -/
theorem shutdown_loop_terminates (parse : Parser) :
    (∀ s t : LoopState, ReceiverStep parse s t → loopMeasure t < loopMeasure s)
    ∧ (∀ s : LoopState, s.doneClosed = true → s.returned = false →
        ReceiverStep parse s { s with returned := true }) := by
  constructor
  · intro s t h
    cases h with
    | doneStep h1 h2 =>
      simp [loopMeasure, h1]
    | errStep h1 h2 =>
      simp only [loopMeasure, h1]
      rw [h2]
      simp
    | msgStep h1 h2 =>
      simp only [loopMeasure, h1]
      rw [h2]
      simp
  · intro s h1 h2
    exact ReceiverStep.doneStep h2 h1

theorem shutdown_loop_terminates_witness :
    loopMeasure { sC7 with returned := true } < loopMeasure sC7
    ∧ ReceiverStep parseC7 sC7 { sC7 with returned := true } :=
  ⟨(shutdown_loop_terminates parseC7).1 sC7 { sC7 with returned := true }
      ((shutdown_loop_terminates parseC7).2 sC7 rfl rfl),
   (shutdown_loop_terminates parseC7).2 sC7 rfl rfl⟩

/-- Claim C8: the delivery callback enqueues each envelope at the tail
of the FIFO buffer, and every run of the dispatch loop from a state with
`msgs` queued processes a leading portion of `msgs` in order, the sink
trace being exactly the concatenation of the per-envelope outputs of the
processed portion — each envelope's records are forwarded, in delivery
order, before the next envelope is dequeued. -/
theorem records_forwarded_in_fifo_order :
    (∀ (c : Chan Msg) (m : Msg), (onMsg c m).buffer = c.buffer ++ [m])
    ∧ (∀ (parse : Parser) (msgs : List Msg) (s : LoopState),
        Reaches parse (initLoopState msgs) s →
        ∃ processed remaining, msgs = processed ++ remaining
          ∧ s.inQueue = remaining
          ∧ s.sinkTrace = sinkOutput parse processed
          ∧ s.errsPending = []) := by
  constructor
  · intro c m
    rfl
  · intro parse msgs s h
    induction h with
    | refl => exact ⟨[], msgs, rfl, rfl, rfl, rfl⟩
    | tail hR step ih =>
      obtain ⟨p, r, hm, hq, ht, he⟩ := ih
      cases step with
      | doneStep h1 h2 =>
        exact ⟨p, r, hm, hq, ht, he⟩
      | errStep h1 h2 =>
        rw [he] at h2
        cases h2
      | msgStep h1 h2 =>
        rename_i m rest
        have hr : r = m :: rest := hq.symm.trans h2
        refine ⟨p ++ [m], rest, ?_, rfl, ?_, he⟩
        · rw [hm, hr]
          simp
        · simp only [sinkOutput_append, sinkOutput]
          rw [ht]
          simp

theorem records_forwarded_in_fifo_order_witness :
    ∃ processed remaining, [msgC8] = processed ++ remaining
      ∧ sC8.inQueue = remaining
      ∧ sC8.sinkTrace = sinkOutput parseC8 processed
      ∧ sC8.errsPending = [] :=
  records_forwarded_in_fifo_order.2 parseC8 [msgC8] sC8
    (Reaches.tail (Reaches.refl _) (ReceiverStep.msgStep rfl rfl))

end NatsConsumer
